import Mathlib

/-!
Shallow embedding of the scheduling/reconciliation core of `src/main.py`
(a Yeelight bulb controller): clock utilities, the Tk-`after`-based
recurring task loop (`LoopController`), the cached-state bulb proxy
(`BulbController`), and the application-level auto-on tick and exit
handler.  External collaborators (the yeelight driver, Tk timers) are
modelled explicitly: device calls receive their outcome as an
`Except DevErr _` argument, and the Tk timer queue is a `TimerSystem`
value threaded through the operations.
-/

namespace Lightbulb

/-- Time-of-day as parsed by `datetime.strptime(s, "%H:%M")`: an hour and a
minute field.  A well-formed "HH:MM" string has `hour < 24` and
`minute < 60`. -/
structure TimeHM where
  hour : Nat
  minute : Nat
deriving Repr, DecidableEq

/-- Well-formedness of an "HH:MM" value. -/
def TimeHM.wf (t : TimeHM) : Prop := t.hour < 24 ∧ t.minute < 60

instance (t : TimeHM) : Decidable t.wf := by
  unfold TimeHM.wf; infer_instance

/-- Minutes-of-day of a time value. -/
def TimeHM.toMinutes (t : TimeHM) : Nat := 60 * t.hour + t.minute

/-- Seconds-of-day of a time value (a `%H:%M` parse has zero seconds). -/
def TimeHM.toSeconds (t : TimeHM) : Nat := 60 * t.toMinutes

/-- Embedding of `add_subtract_minutes(time, minutes)` from `src/main.py`:
`strptime` produces the naive datetime 1900-01-01 HH:MM, `timedelta(minutes=o)`
is added, and `strftime("%H:%M")` renders the resulting instant's hour and
minute.  The instant is represented as absolute minutes from the epoch
1900-01-01T00:00 (an `Int`, since the delta may be negative); `%H:%M` of an
instant is its within-day decomposition, i.e. the value modulo 1440 split
into hour and minute. -/
def add_subtract_minutes (time : TimeHM) (minutes : Int) : TimeHM :=
  let time_obj : Int := (time.toMinutes : Int)
  let new_time : Int := time_obj + minutes
  let rendered : Nat := (new_time % 1440).toNat
  ⟨rendered / 60, rendered % 60⟩

/-- A naive `datetime` at the granularity the comparisons in the source
need: a day index (the calendar date) and the seconds elapsed within that
day (`datetime.time()` order agrees with seconds-of-day order). -/
structure Instant where
  day : Nat
  sod : Nat
deriving Repr, DecidableEq

/-- Embedding of `get_target_datetime(target_time)` from `src/main.py`:
combine today's date with the target time-of-day, and roll one day forward
exactly when the target is strictly earlier than `now.time()`. -/
def get_target_datetime (target_time : TimeHM) (now : Instant) : Instant :=
  let target : Nat := target_time.toSeconds
  let target_datetime : Instant := ⟨now.day, target⟩
  if target < now.sod then ⟨target_datetime.day + 1, target_datetime.sod⟩
  else target_datetime

/-- Error raised by a device call of the external yeelight driver
(`BulbException` propagating out of `bulb.turn_on()` etc.). -/
inductive DevErr
  | bulbException
deriving Repr, DecidableEq

/-- Model of the Tk timer queue used through `Misc.after` /
`Misc.after_cancel`: a fresh-id counter and the list of ids of pending
(scheduled, not yet fired) callbacks.  All callbacks in this development
are the single `_run_task` callback, so the id alone identifies a pending
firing. -/
structure TimerSystem where
  nextId : Nat
  pending : List Nat
deriving Repr, DecidableEq

/-- Embedding of `root.after(interval, cb)`: schedules one callback and
returns its fresh id. -/
def TimerSystem.after (s : TimerSystem) : Nat × TimerSystem :=
  (s.nextId, ⟨s.nextId + 1, s.pending ++ [s.nextId]⟩)

/-- Embedding of `root.after_cancel(id)`: removes the pending callback with
the given id, a no-op when the id is no longer pending (e.g. it already
fired). -/
def TimerSystem.after_cancel (s : TimerSystem) (id : Nat) : TimerSystem :=
  ⟨s.nextId, s.pending.filter (fun j => j ≠ id)⟩

/-- State of a `LoopController` from `src/main.py` together with the timer
queue it schedules on: `loop_id` is the `_loop_id` attribute (`None` when
stopped, otherwise the id returned by the last `after` call). -/
structure LoopState where
  timers : TimerSystem
  loop_id : Option Nat
deriving Repr, DecidableEq

namespace LoopController

/-- Embedding of `LoopController._start_loop`: schedule `_run_task` after
the interval and record the returned id in `_loop_id`. -/
def start_loop (s : LoopState) : LoopState :=
  let (id, t) := s.timers.after
  ⟨t, some id⟩

/-- Embedding of `LoopController._run_task`, the callback a firing runs.
Python runs `self.task()` first; if the task raises, the exception
propagates out of the callback and the remaining lines never execute.  The
task is modelled as returning the mutated state together with an optional
propagating exception (in-place mutations made before a raise persist).
When the task returns normally and `self._loop_id` is still truthy, the
next firing is scheduled. -/
def run_task (task : LoopState → LoopState × Option DevErr) (s : LoopState) :
    LoopState × Option DevErr :=
  match task s with
  | (s1, some e) => (s1, some e)
  | (s1, none) =>
      if s1.loop_id.isSome then (start_loop s1, none) else (s1, none)

/-- Embedding of `LoopController.start`: schedule only when `_loop_id` is
`None`. -/
def start (s : LoopState) : LoopState :=
  if s.loop_id = none then start_loop s else s

/-- Embedding of `LoopController.stop`: cancel the pending callback (if
any) and clear `_loop_id`. -/
def stop (s : LoopState) : LoopState :=
  match s.loop_id with
  | some id => ⟨s.timers.after_cancel id, none⟩
  | none => s

/-- Embedding of `LoopController.is_running`. -/
def is_running (s : LoopState) : Bool := s.loop_id.isSome

end LoopController

/-- Device commands sent to the external yeelight driver, recorded as a
trace: `Cmd.on` is `bulb.turn_on()`, `Cmd.off` is `bulb.turn_off()`,
`Cmd.toggle` is `bulb.toggle()`, and `Cmd.query` is
`bulb.get_properties()` issued by `get_power_state`. -/
inductive Cmd
  | on
  | off
  | toggle
  | query
deriving Repr, DecidableEq

/-- State of a `BulbController` from `src/main.py`.  `ip` is the
constructor argument (`None` means no bulb is connected and every method
takes its else-branch), `power_state` is the cached power state string.
`commands` is the instrumentation trace of outbound device calls, and
`notified` the trace of payloads passed to the state-change callback by
`_notify`. -/
structure BulbController where
  ip : Option String
  power_state : String
  commands : List Cmd
  notified : List String
deriving Repr, DecidableEq

namespace BulbController

/-- Embedding of `BulbController._notify`: invoke the subscriber callback
with the current cached power state (recorded in the `notified` trace). -/
def notify (b : BulbController) : BulbController :=
  { b with notified := b.notified ++ [b.power_state] }

/-- Embedding of `BulbController.turn_on`.  The outcome of the external
`bulb.turn_on()` call is the `dev` argument; when it raises, the exception
propagates and the cache update and notification never run. -/
def turn_on (dev : Except DevErr Unit) (b : BulbController) :
    BulbController × Option DevErr :=
  match b.ip with
  | some _ =>
      if b.power_state = "off" then
        let b1 := { b with commands := b.commands ++ [Cmd.on] }
        match dev with
        | Except.error e => (b1, some e)
        | Except.ok _ => (notify { b1 with power_state := "on" }, none)
      else (b, none)
  | none => (b, none)

/-- Embedding of `BulbController.turn_off`, symmetric to `turn_on` with
the `"on"` guard. -/
def turn_off (dev : Except DevErr Unit) (b : BulbController) :
    BulbController × Option DevErr :=
  match b.ip with
  | some _ =>
      if b.power_state = "on" then
        let b1 := { b with commands := b.commands ++ [Cmd.off] }
        match dev with
        | Except.error e => (b1, some e)
        | Except.ok _ => (notify { b1 with power_state := "off" }, none)
      else (b, none)
  | none => (b, none)

/-- Embedding of `BulbController.get_power_state`: with an IP, query the
device (`devq` is the outcome of `bulb.get_properties()["power"]`);
without one, return `"off"`. -/
def get_power_state (devq : Except DevErr String) (b : BulbController) :
    BulbController × Except DevErr String :=
  match b.ip with
  | some _ => ({ b with commands := b.commands ++ [Cmd.query] }, devq)
  | none => (b, Except.ok "off")

/-- Embedding of `BulbController.toggle`: send the toggle command
unconditionally, then refresh the cached state via `get_power_state` and
notify.  `dev` is the outcome of `bulb.toggle()`, `devq` of the refresh
query; either may raise, skipping the rest of the method. -/
def toggle (dev : Except DevErr Unit) (devq : Except DevErr String)
    (b : BulbController) : BulbController × Option DevErr :=
  match b.ip with
  | some _ =>
      let b1 := { b with commands := b.commands ++ [Cmd.toggle] }
      match dev with
      | Except.error e => (b1, some e)
      | Except.ok _ =>
          match get_power_state devq b1 with
          | (b2, Except.error e) => (b2, some e)
          | (b2, Except.ok p) => (notify { b2 with power_state := p }, none)
  | none => (b, none)

end BulbController

/-- The slice of `App` state that the auto-on scheduler touches:
the shared Tk timer queue, the `turn_on_loop` attribute (`none` when the
`LoopController` object has not been created or was reset to `None`,
otherwise its `_loop_id`), the computed `turn_on_time`, and the bulb
proxy. -/
structure AutoOnApp where
  timers : TimerSystem
  turn_on_loop : Option (Option Nat)
  turn_on_time : TimeHM
  bulb : BulbController
deriving Repr, DecidableEq

/-- Embedding of `App.turn_on_task`, the auto-on poll tick: when the
target time-of-day is `≤` the current time-of-day (`now_sod`, seconds of
day — the comparison looks at the time only, never the date), call
`bulb.turn_on()` and then stop and drop the loop.  When `bulb.turn_on()`
raises, the stop lines never run and the exception propagates out of the
tick. -/
def turn_on_task (dev : Except DevErr Unit) (now_sod : Nat) (a : AutoOnApp) :
    AutoOnApp × Option DevErr :=
  if a.turn_on_time.toSeconds ≤ now_sod then
    match BulbController.turn_on dev a.bulb with
    | (b1, some e) => ({ a with bulb := b1 }, some e)
    | (b1, none) =>
        match a.turn_on_loop with
        | some lid =>
            let ls := LoopController.stop ⟨a.timers, lid⟩
            ({ a with bulb := b1, timers := ls.timers, turn_on_loop := none },
             none)
        | none => ({ a with bulb := b1 }, none)
  else (a, none)

/-- Embedding of `App.sunset_turn_on`: lazily create the loop controller,
then — when the auto-on checkbox variable is 1 — recompute
`turn_on_time = add_subtract_minutes(sunset, offset)` and `start()` the
loop, otherwise `stop()` it. -/
def sunset_turn_on (auto_on_var : Nat) (sunset : TimeHM) (offset : Int)
    (a : AutoOnApp) : AutoOnApp :=
  let a1 : AutoOnApp :=
    match a.turn_on_loop with
    | none => { a with turn_on_loop := some none }
    | some _ => a
  match a1.turn_on_loop with
  | some lid =>
      if auto_on_var = 1 then
        let t := add_subtract_minutes sunset offset
        let ls := LoopController.start ⟨a1.timers, lid⟩
        { a1 with turn_on_time := t, timers := ls.timers,
                  turn_on_loop := some ls.loop_id }
      else
        let ls := LoopController.stop ⟨a1.timers, lid⟩
        { a1 with timers := ls.timers, turn_on_loop := some ls.loop_id }
  | none => a1

/-- Result of `App.exit`: the bulb proxy afterwards, the exception that
propagated (if any), whether `self.destroy()` was reached, and how many
times `self.bulb.turn_off()` was invoked. -/
structure ExitResult where
  bulb : BulbController
  err : Option DevErr
  destroyed : Bool
  turn_off_calls : Nat
deriving Repr, DecidableEq

/-- Embedding of `App.exit`: when the `exit_var` checkbox variable is
truthy (non-zero), invoke `self.bulb.turn_off()` once and then destroy the
application; when it is 0, destroy without touching the bulb.  If
`turn_off` raises, `destroy` is never reached. -/
def app_exit (exit_var : Nat) (dev : Except DevErr Unit)
    (b : BulbController) : ExitResult :=
  if exit_var ≠ 0 then
    match BulbController.turn_off dev b with
    | (b1, none) => ⟨b1, none, true, 1⟩
    | (b1, some e) => ⟨b1, some e, false, 1⟩
  else ⟨b, none, true, 0⟩

/-- A task that raises on every call, modelling a tick whose device
command fails with a `BulbException` (mid-firing the state is whatever the
partial execution left). -/
def throwing_task : LoopState → LoopState × Option DevErr :=
  fun s => (s, some DevErr.bulbException)

/-- A task that calls `stop()` on its own loop and returns normally — the
shape of `App.turn_on_task`'s firing path in miniature. -/
def stopping_task : LoopState → LoopState × Option DevErr :=
  fun s => (LoopController.stop s, none)

/-- C3: for every well-formed "HH:MM" time and every integer minute delta
(negative and larger-than-60 magnitudes included), `add_subtract_minutes`
returns an "HH:MM" value whose minutes-of-day equal the input's
minutes-of-day plus the delta, modulo 1440. -/
theorem C3_add_subtract_minutes_mod (t : TimeHM) (o : Int) (h : t.wf) :
    ((add_subtract_minutes t o).toMinutes : Int) = ((t.toMinutes : Int) + o) % 1440 ∧
    (add_subtract_minutes t o).wf := by
  simp only [add_subtract_minutes, TimeHM.toMinutes, TimeHM.wf]
  refine ⟨?_, ?_, ?_⟩ <;> omega

/-- C3 witness: 00:05 minus 20 minutes wraps to 23:45 = 1425 minutes-of-day,
which is (5 - 20) mod 1440. -/
theorem C3_witness :
    (((add_subtract_minutes ⟨0, 5⟩ (-20)).toMinutes : Int)
        = (((⟨0, 5⟩ : TimeHM).toMinutes : Int) + (-20)) % 1440 ∧
      (add_subtract_minutes ⟨0, 5⟩ (-20)).wf) :=
  C3_add_subtract_minutes_mod ⟨0, 5⟩ (-20) (by decide)

/-- C1 counterexample: with the current instant exactly at 22:00:00 on day
100 and target "22:00", the target equals now's time-of-day, yet
`get_target_datetime` returns *today* at 22:00 (day 100), not tomorrow
(day 101) as the claim states. -/
theorem C1_counterexample :
    get_target_datetime ⟨22, 0⟩ ⟨100, 79200⟩ = ⟨100, 79200⟩ ∧
    get_target_datetime ⟨22, 0⟩ ⟨100, 79200⟩ ≠ ⟨101, 79200⟩ := by
  decide

/-- C1 amended: `get_target_datetime` combines today's date with the
target when the target is greater than **or equal to** now's time-of-day,
and rolls to tomorrow only when the target is strictly earlier than now's
time-of-day; in particular, when the target equals now's time-of-day the
result is *today* at the target. -/
theorem C1_next_occurrence (t : TimeHM) (now : Instant) :
    (get_target_datetime t now).sod = t.toSeconds ∧
    (now.sod ≤ t.toSeconds → (get_target_datetime t now).day = now.day) ∧
    (t.toSeconds < now.sod → (get_target_datetime t now).day = now.day + 1) ∧
    (t.toSeconds = now.sod → get_target_datetime t now = ⟨now.day, t.toSeconds⟩) := by
  simp only [get_target_datetime]
  by_cases hc : t.toSeconds < now.sod <;> simp [hc] <;> omega

/-- C1 amended witness: target "22:00" stays on day 7 when now is
22:00:00, and rolls to day 8 when now is 23:10:00. -/
theorem C1_witness :
    (get_target_datetime ⟨22, 0⟩ ⟨7, 79200⟩).day = 7 ∧
    (get_target_datetime ⟨22, 0⟩ ⟨7, 83400⟩).day = 8 :=
  ⟨(C1_next_occurrence ⟨22, 0⟩ ⟨7, 79200⟩).2.1 (by decide),
   (C1_next_occurrence ⟨22, 0⟩ ⟨7, 83400⟩).2.2.1 (by decide)⟩

/-- C2 counterexample: a firing whose task raises (the fired timer id has
been dequeued, `_loop_id` still holds it).  The claim says a next firing
is still scheduled; in fact `run_task` propagates the exception before the
reschedule line, leaving the pending-timer queue empty — the loop never
fires again. -/
theorem C2_counterexample :
    (LoopController.run_task throwing_task ⟨⟨1, []⟩, some 0⟩).1.timers.pending = [] ∧
    (LoopController.run_task throwing_task ⟨⟨1, []⟩, some 0⟩).2
      = some DevErr.bulbException := by
  decide

/-- C2 amended: when the task raises during a firing, the exception
propagates out of `_run_task` before the reschedule step: no next firing
is scheduled (the pending-timer queue is exactly as the task left it, with
no new id), and `_loop_id` is left as the task left it — stale if still
set — so the loop stops polling while still reporting as running. -/
theorem C2_exception_aborts_loop (task : LoopState → LoopState × Option DevErr)
    (s s1 : LoopState) (e : DevErr) (h : task s = (s1, some e)) :
    (LoopController.run_task task s).2 = some e ∧
    (LoopController.run_task task s).1.timers.pending = s1.timers.pending ∧
    (LoopController.run_task task s).1.loop_id = s1.loop_id := by
  simp [LoopController.run_task, h]

/-- C2 amended witness: the always-raising task at a concrete mid-firing
state. -/
theorem C2_witness :
    (LoopController.run_task throwing_task ⟨⟨1, []⟩, some 0⟩).2
        = some DevErr.bulbException ∧
    (LoopController.run_task throwing_task ⟨⟨1, []⟩, some 0⟩).1.timers.pending = [] :=
  ⟨(C2_exception_aborts_loop throwing_task ⟨⟨1, []⟩, some 0⟩ ⟨⟨1, []⟩, some 0⟩
      DevErr.bulbException rfl).1,
   (C2_exception_aborts_loop throwing_task ⟨⟨1, []⟩, some 0⟩ ⟨⟨1, []⟩, some 0⟩
      DevErr.bulbException rfl).2.1⟩

/-- C4: for a connected proxy, `turn_on` is a complete no-op (no command,
no notification, no state change, no error) whenever the cached state is
already "on"; and from cached "off", a successful `turn_on` issues exactly
one outbound "on" command and exactly one subscriber notification and any
immediately repeated `turn_on` call is a no-op. -/
theorem C4_turn_on_idempotent (b : BulbController) (dev : Except DevErr Unit)
    (hip : b.ip.isSome) :
    (b.power_state = "on" → BulbController.turn_on dev b = (b, none)) ∧
    (b.power_state = "off" →
      ((BulbController.turn_on (Except.ok ()) b).1.commands = b.commands ++ [Cmd.on] ∧
       (BulbController.turn_on (Except.ok ()) b).1.notified = b.notified ++ ["on"] ∧
       (BulbController.turn_on (Except.ok ()) b).1.power_state = "on") ∧
      BulbController.turn_on dev (BulbController.turn_on (Except.ok ()) b).1
        = ((BulbController.turn_on (Except.ok ()) b).1, none)) := by
  obtain ⟨ip, hipe⟩ := Option.isSome_iff_exists.mp hip
  constructor
  · intro hon
    simp [BulbController.turn_on, hipe, hon]
  · intro hoff
    simp [BulbController.turn_on, BulbController.notify, hipe, hoff]

/-- C4 witness: a connected proxy cached "off"; the double call. -/
theorem C4_witness :
    BulbController.turn_on (Except.ok ())
        (BulbController.turn_on (Except.ok ()) ⟨some "ip", "off", [], []⟩).1
      = ((BulbController.turn_on (Except.ok ()) ⟨some "ip", "off", [], []⟩).1, none) :=
  ((C4_turn_on_idempotent ⟨some "ip", "off", [], []⟩ (Except.ok ()) rfl).2 rfl).2

/-- C5: `start` is idempotent — a second `start` changes nothing, `start`
on an already-running loop is the identity — and two consecutive `start`
calls from a stopped loop with an empty timer queue leave exactly one
pending scheduled firing. -/
theorem C5_start_once (s : LoopState) :
    LoopController.start (LoopController.start s) = LoopController.start s ∧
    (∀ id, s.loop_id = some id → LoopController.start s = s) ∧
    (s.loop_id = none → s.timers.pending = [] →
      (LoopController.start (LoopController.start s)).timers.pending.length = 1) := by
  cases hs : s.loop_id with
  | none =>
      refine ⟨?_, ?_, ?_⟩
      · simp [LoopController.start, LoopController.start_loop, TimerSystem.after, hs]
      · intro id hid; exact (Option.noConfusion hid)
      · intro _ hp
        simp [LoopController.start, LoopController.start_loop, TimerSystem.after, hs, hp]
  | some id =>
      refine ⟨?_, ?_, ?_⟩
      · simp [LoopController.start, hs]
      · intro j hj; simp [LoopController.start, hs]
      · intro hn; exact (Option.noConfusion hn)

/-- C5 witness: double `start` from the stopped, empty state. -/
theorem C5_witness :
    (LoopController.start (LoopController.start ⟨⟨0, []⟩, none⟩)).timers.pending.length = 1 :=
  (C5_start_once ⟨⟨0, []⟩, none⟩).2.2 rfl rfl

/-- C6: a firing runs the task to completion and reschedules only if the
loop is still marked running afterwards: if the task (e.g. by calling
`stop()` from inside) leaves `_loop_id` cleared, `run_task` returns the
task's state unchanged — no further firing is ever scheduled; if the task
leaves the loop marked running, exactly one next firing is scheduled. -/
theorem C6_stop_inside_task (task : LoopState → LoopState × Option DevErr)
    (s s1 : LoopState) (h : task s = (s1, none)) :
    (s1.loop_id = none → LoopController.run_task task s = (s1, none)) ∧
    (s1.loop_id.isSome →
      (LoopController.run_task task s).1.timers.pending
        = s1.timers.pending ++ [s1.timers.nextId] ∧
      (LoopController.run_task task s).1.loop_id = some s1.timers.nextId) := by
  constructor
  · intro hn
    simp [LoopController.run_task, h, hn]
  · intro hsome
    simp [LoopController.run_task, LoopController.start_loop, TimerSystem.after, h, hsome]

/-- C6 witness: a task that stops its own loop, fired from a mid-firing
state (fired id dequeued, `_loop_id` stale): no next firing scheduled. -/
theorem C6_witness :
    LoopController.run_task stopping_task ⟨⟨1, []⟩, some 0⟩ = (⟨⟨1, []⟩, none⟩, none) :=
  (C6_stop_inside_task stopping_task ⟨⟨1, []⟩, some 0⟩ ⟨⟨1, []⟩, none⟩ (by decide)).1 rfl

/-- C7: when the underlying device call raises inside `turn_on`,
`turn_off`, or `toggle` (for `toggle`, whether the toggle command itself
or the follow-up state query raises), the cached power state and the
notification trace are exactly as before the call, and the exception is
returned to the immediate caller whenever the device call was actually
made (connected proxy, guard passed). -/
theorem C7_failure_preserves_cache (b : BulbController) (e : DevErr) :
    ((BulbController.turn_on (Except.error e) b).1.power_state = b.power_state ∧
     (BulbController.turn_on (Except.error e) b).1.notified = b.notified ∧
     (b.ip.isSome → b.power_state = "off" →
       (BulbController.turn_on (Except.error e) b).2 = some e)) ∧
    ((BulbController.turn_off (Except.error e) b).1.power_state = b.power_state ∧
     (BulbController.turn_off (Except.error e) b).1.notified = b.notified ∧
     (b.ip.isSome → b.power_state = "on" →
       (BulbController.turn_off (Except.error e) b).2 = some e)) ∧
    (∀ devq, (BulbController.toggle (Except.error e) devq b).1.power_state = b.power_state ∧
     (BulbController.toggle (Except.error e) devq b).1.notified = b.notified ∧
     (b.ip.isSome → (BulbController.toggle (Except.error e) devq b).2 = some e)) ∧
    ((BulbController.toggle (Except.ok ()) (Except.error e) b).1.power_state = b.power_state ∧
     (BulbController.toggle (Except.ok ()) (Except.error e) b).1.notified = b.notified ∧
     (b.ip.isSome → (BulbController.toggle (Except.ok ()) (Except.error e) b).2 = some e)) := by
  cases hip : b.ip with
  | none =>
      simp [BulbController.turn_on, BulbController.turn_off, BulbController.toggle, hip]
  | some ip =>
      refine ⟨⟨?_, ?_, ?_⟩, ⟨?_, ?_, ?_⟩, ?_, ⟨?_, ?_, ?_⟩⟩ <;>
        try intro devq
      all_goals
        by_cases hoff : b.power_state = "off" <;>
        by_cases hon : b.power_state = "on" <;>
          simp [BulbController.turn_on, BulbController.turn_off, BulbController.toggle,
                BulbController.get_power_state, BulbController.notify, hip, hoff, hon]

/-- C7 witness: connected proxy cached "off"; the failing `turn_on`
propagates and the cache stays "off" with no notification. -/
theorem C7_witness :
    ((BulbController.turn_on (Except.error DevErr.bulbException)
        ⟨some "ip", "off", [], []⟩).2 = some DevErr.bulbException) ∧
    (BulbController.turn_on (Except.error DevErr.bulbException)
        ⟨some "ip", "off", [], []⟩).1.power_state = "off" :=
  ⟨((C7_failure_preserves_cache ⟨some "ip", "off", [], []⟩ DevErr.bulbException).1.2.2
      rfl rfl),
   (C7_failure_preserves_cache ⟨some "ip", "off", [], []⟩ DevErr.bulbException).1.1⟩

/-- C8: the auto-on poll tick compares time-of-day only (`turn_on_task`
takes no date at all, so no day rollover can be involved): when the
current time-of-day is at or past the target, the tick calls
`bulb.turn_on()` and stops and drops the loop (the pending timer id is
cancelled, so no further polling occurs); when the target is still ahead
the tick changes nothing.  Consequently, arming via `sunset_turn_on` sets
the target to `add_subtract_minutes sunset offset` and leaves a running
loop, and if that target has already passed today, the very first tick
fires and halts the loop. -/
theorem C8_auto_on_tick (a : AutoOnApp) (now_sod : Nat) (lid : Option Nat)
    (sunset : TimeHM) (offset : Int) (hloop : a.turn_on_loop = some lid) :
    (a.turn_on_time.toSeconds ≤ now_sod →
      (turn_on_task (Except.ok ()) now_sod a).1.bulb
          = (BulbController.turn_on (Except.ok ()) a.bulb).1 ∧
      (turn_on_task (Except.ok ()) now_sod a).1.turn_on_loop = none ∧
      (turn_on_task (Except.ok ()) now_sod a).2 = none ∧
      (∀ id, lid = some id →
        id ∉ (turn_on_task (Except.ok ()) now_sod a).1.timers.pending)) ∧
    (now_sod < a.turn_on_time.toSeconds →
      turn_on_task (Except.ok ()) now_sod a = (a, none)) ∧
    ((sunset_turn_on 1 sunset offset a).turn_on_time
        = add_subtract_minutes sunset offset ∧
     ∃ j, (sunset_turn_on 1 sunset offset a).turn_on_loop = some (some j)) ∧
    ((add_subtract_minutes sunset offset).toSeconds ≤ now_sod →
      (turn_on_task (Except.ok ()) now_sod
          (sunset_turn_on 1 sunset offset a)).1.turn_on_loop = none ∧
      (turn_on_task (Except.ok ()) now_sod
          (sunset_turn_on 1 sunset offset a)).1.bulb
        = (BulbController.turn_on (Except.ok ()) a.bulb).1) := by
  have hdev : ∀ b : BulbController,
      BulbController.turn_on (Except.ok ()) b
        = ((BulbController.turn_on (Except.ok ()) b).1, none) := by
    intro b
    cases hib : b.ip with
    | none => simp [BulbController.turn_on, hib]
    | some ip =>
        by_cases hoff : b.power_state = "off" <;>
          simp [BulbController.turn_on, BulbController.notify, hib, hoff]
  have harm : (sunset_turn_on 1 sunset offset a).turn_on_time
        = add_subtract_minutes sunset offset ∧
      (sunset_turn_on 1 sunset offset a).bulb = a.bulb ∧
      ∃ j, (sunset_turn_on 1 sunset offset a).turn_on_loop = some (some j) := by
    cases hl : lid with
    | none =>
        simp [sunset_turn_on, hloop, hl, LoopController.start,
              LoopController.start_loop, TimerSystem.after]
    | some j =>
        simp [sunset_turn_on, hloop, hl, LoopController.start]
  have htick : ∀ a2 : AutoOnApp, ∀ lid2 : Option Nat,
      a2.turn_on_loop = some lid2 →
      a2.turn_on_time.toSeconds ≤ now_sod →
      (turn_on_task (Except.ok ()) now_sod a2).1.bulb
          = (BulbController.turn_on (Except.ok ()) a2.bulb).1 ∧
      (turn_on_task (Except.ok ()) now_sod a2).1.turn_on_loop = none ∧
      (turn_on_task (Except.ok ()) now_sod a2).2 = none ∧
      (∀ id, lid2 = some id →
        id ∉ (turn_on_task (Except.ok ()) now_sod a2).1.timers.pending) := by
    intro a2 lid2 hloop2 hle
    obtain ⟨b1, hb1⟩ : ∃ b1, BulbController.turn_on (Except.ok ()) a2.bulb = (b1, none) :=
      ⟨_, hdev a2.bulb⟩
    cases hl : lid2 with
    | none =>
        simp [turn_on_task, hle, hb1, hloop2, hl, LoopController.stop]
    | some id =>
        simp [turn_on_task, hle, hb1, hloop2, hl, LoopController.stop,
              TimerSystem.after_cancel, List.mem_filter]
  refine ⟨htick a lid hloop, ?_, ⟨harm.1, harm.2.2⟩, ?_⟩
  · intro hlt
    simp [turn_on_task, Nat.not_le.mpr hlt]
  · intro hle
    obtain ⟨j, hj⟩ := harm.2.2
    have := htick (sunset_turn_on 1 sunset offset a) (some j) hj
      (by rw [harm.1]; exact hle)
    exact ⟨this.2.1, by rw [this.1, harm.2.1]⟩

/-- C8 witness: sunset 18:30, offset −15 gives target 18:15; at 18:15:00
with the loop running on timer id 0, the tick turns the bulb on and halts
the loop. -/
theorem C8_witness :
    (turn_on_task (Except.ok ()) 65700
        ⟨⟨1, [0]⟩, some (some 0), ⟨18, 15⟩, ⟨some "ip", "off", [], []⟩⟩).1.turn_on_loop
      = none ∧
    (turn_on_task (Except.ok ()) 65700
        ⟨⟨1, [0]⟩, some (some 0), ⟨18, 15⟩, ⟨some "ip", "off", [], []⟩⟩).1.bulb
      = (BulbController.turn_on (Except.ok ()) ⟨some "ip", "off", [], []⟩).1 :=
  ⟨((C8_auto_on_tick ⟨⟨1, [0]⟩, some (some 0), ⟨18, 15⟩, ⟨some "ip", "off", [], []⟩⟩
      65700 (some 0) ⟨18, 30⟩ (-15) rfl).1 (by decide)).2.1,
   ((C8_auto_on_tick ⟨⟨1, [0]⟩, some (some 0), ⟨18, 15⟩, ⟨some "ip", "off", [], []⟩⟩
      65700 (some 0) ⟨18, 30⟩ (-15) rfl).1 (by decide)).1⟩

/-- C9: with no IP address configured, every proxy operation degrades to a
no-op at the interface: `turn_on`, `turn_off`, and `toggle` return the
state unchanged (no command in the trace, no notification, no state
change, no error), and `get_power_state` always answers "off". -/
theorem C9_no_ip_noop (b : BulbController) (h : b.ip = none)
    (dev : Except DevErr Unit) (devq devq2 : Except DevErr String) :
    BulbController.turn_on dev b = (b, none) ∧
    BulbController.turn_off dev b = (b, none) ∧
    BulbController.toggle dev devq b = (b, none) ∧
    BulbController.get_power_state devq2 b = (b, Except.ok "off") := by
  simp [BulbController.turn_on, BulbController.turn_off, BulbController.toggle,
        BulbController.get_power_state, h]

/-- C9 witness: a disconnected proxy on a concrete state and arbitrary
concrete device outcomes. -/
theorem C9_witness :
    BulbController.toggle (Except.ok ()) (Except.ok "on")
        ⟨none, "off", [], []⟩ = (⟨none, "off", [], []⟩, none) ∧
    BulbController.get_power_state (Except.ok "on") ⟨none, "off", [], []⟩
      = (⟨none, "off", [], []⟩, Except.ok "off") :=
  ⟨(C9_no_ip_noop ⟨none, "off", [], []⟩ rfl (Except.ok ())
      (Except.ok "on") (Except.ok "on")).2.2.1,
   (C9_no_ip_noop ⟨none, "off", [], []⟩ rfl (Except.ok ())
      (Except.ok "on") (Except.ok "on")).2.2.2⟩

/-- C10: when the auto-off-at-exit flag is set (non-zero), `App.exit`
invokes `turn_off` on the bulb exactly once, and (when that call does not
raise) destroys the application afterwards; when the flag is clear, the
application is destroyed with no `turn_off` invocation and no device
command issued. -/
theorem C10_exit_turn_off (exit_var : Nat) (dev : Except DevErr Unit)
    (b : BulbController) :
    (exit_var ≠ 0 →
      (app_exit exit_var dev b).turn_off_calls = 1 ∧
      (app_exit exit_var dev b).bulb = (BulbController.turn_off dev b).1 ∧
      ((BulbController.turn_off dev b).2 = none →
        (app_exit exit_var dev b).destroyed = true)) ∧
    (exit_var = 0 →
      (app_exit exit_var dev b).turn_off_calls = 0 ∧
      (app_exit exit_var dev b).bulb = b ∧
      (app_exit exit_var dev b).bulb.commands = b.commands ∧
      (app_exit exit_var dev b).destroyed = true) := by
  by_cases hv : exit_var = 0
  · simp [app_exit, hv]
  · cases hto : BulbController.turn_off dev b with
    | mk b1 r =>
        cases r with
        | none => simp [app_exit, hv, hto]
        | some e => simp [app_exit, hv, hto]

/-- C10 witness: flag set on a bulb cached "on" whose command succeeds —
one `turn_off` invocation, then destroyed; flag clear — zero
invocations. -/
theorem C10_witness :
    ((app_exit 1 (Except.ok ()) ⟨some "ip", "on", [], []⟩).turn_off_calls = 1 ∧
     (app_exit 1 (Except.ok ()) ⟨some "ip", "on", [], []⟩).bulb
        = (BulbController.turn_off (Except.ok ()) ⟨some "ip", "on", [], []⟩).1 ∧
     ((BulbController.turn_off (Except.ok ()) ⟨some "ip", "on", [], []⟩).2 = none →
       (app_exit 1 (Except.ok ()) ⟨some "ip", "on", [], []⟩).destroyed = true)) ∧
    (app_exit 0 (Except.ok ()) ⟨some "ip", "on", [], []⟩).turn_off_calls = 0 :=
  ⟨(C10_exit_turn_off 1 (Except.ok ()) ⟨some "ip", "on", [], []⟩).1 (by decide),
   ((C10_exit_turn_off 0 (Except.ok ()) ⟨some "ip", "on", [], []⟩).2 rfl).1⟩

end Lightbulb
